import Mathlib

/-!
Shallow embedding of the retrieval-and-orchestration core of the
course-materials RAG chatbot (backend of krikit/starting-ragchatbot-codebase),
together with theorems settling the frozen claims about it.

The generation orchestrator (`AIGenerator` in src/backend/ai_generator.py) is
embedded directly from the source.  The OpenAI client is abstracted as an
oracle `client : Nat -> CallResult` giving, for the n-th invocation of
`chat.completions.create` within one `generate_response` call, either a model
response or a raised exception (carrying `str(e)`).  The embedding records a
trace: the api parameters of every model call issued and every
`tool_manager.execute_tool` invocation, in order.
-/

namespace RagCore

/-- One entry of the `tool_calls` array of an OpenAI chat response:
`tool_call.id`, `tool_call.function.name`, `tool_call.function.arguments`
(the raw JSON payload; `json.loads` is modelled as passing the payload
through to the tool executor). -/
structure ToolCallReq where
  id : String
  name : String
  arguments : String
deriving DecidableEq

/-- The single choice of an OpenAI chat response, as read by ai_generator.py:
`finish_reason`, `message.content` (may be `None`), `message.tool_calls`. -/
structure ModelResponse where
  finish_reason : String
  content : Option String
  tool_calls : List ToolCallReq
deriving DecidableEq

/-- Outcome of one `chat.completions.create` invocation: a response, or an
exception whose `str(e)` is the carried string. -/
inductive CallResult where
  | ok : ModelResponse → CallResult
  | exn : String → CallResult
deriving DecidableEq

/-- A chat message dict as built by ai_generator.py. -/
structure Message where
  role : String
  content : Option String
  tool_call_id : Option String := none
  tool_calls : List ToolCallReq := []
deriving DecidableEq

/-- A tool definition in the Anthropic-style format consumed by
`generate_response` (`name`, `description`, `input_schema`); the schema is
kept as an opaque payload. -/
structure ToolDef where
  name : String
  description : String
  input_schema : String
deriving DecidableEq

/-- The `function` part of an OpenAI-format tool. -/
structure OpenAIFunction where
  name : String
  description : String
  parameters : String
deriving DecidableEq

/-- An OpenAI-format tool as produced by `_convert_tools_to_openai_format`. -/
structure OpenAITool where
  type : String
  function : OpenAIFunction
deriving DecidableEq

/-- `AIGenerator._convert_tools_to_openai_format`. -/
def convert_tools_to_openai_format (tools : List ToolDef) : List OpenAITool :=
  tools.map fun t =>
    { type := "function"
      function :=
        { name := t.name, description := t.description, parameters := t.input_schema } }

/-- The parameters of one `chat.completions.create` call that the claims are
about: the messages array, the `tools` key (absent = `none`) and the
`tool_choice` key.  The constant `base_params` (model name, temperature,
max_tokens) carries no claim-relevant information and is omitted. -/
structure ApiParams where
  messages : List Message
  tools : Option (List OpenAITool)
  tool_choice : Option String
deriving DecidableEq

/-- `AIGenerator.SYSTEM_PROMPT` (static system prompt of ai_generator.py). -/
def SYSTEM_PROMPT : String :=
  "You are an AI assistant specialized in course materials and educational content with access to comprehensive tools for course information.\n\nTool Usage Guidelines:\n- **Course outline/structure questions**: Use get_course_outline tool to get complete course information including:\n  * Course title and instructor\n  * Course link\n  * Complete lesson list with numbers, titles, and links\n- **Specific content questions**: Use search_course_content tool for detailed educational materials\n- **Use tools when relevant to the query**\n- Synthesize tool results into accurate, fact-based responses\n- If tools yield no results, state this clearly without offering alternatives\n\nWhen to Use Each Tool:\n- **get_course_outline**: For questions about course structure, lesson lists, course outlines, \"what lessons are in...\", \"what's covered in the course\", etc.\n- **search_course_content**: For detailed content within lessons, specific topics, explanations, examples from course materials\n\nResponse Protocol:\n- **General knowledge questions**: Answer using existing knowledge without using tools\n- **Course outline questions**: Use get_course_outline tool first, then provide comprehensive course information\n- **Course content questions**: Use search_course_content tool first, then answer\n- **No meta-commentary**:\n  - Provide direct answers only - no reasoning process, tool explanations, or question-type analysis\n  - Do not mention \"based on the tool results\" or \"using the tool\"\n\nAll responses must be:\n1. **Brief, Concise and focused** - Get to the point quickly\n2. **Educational** - Maintain instructional value\n3. **Clear** - Use accessible language\n4. **Example-supported** - Include relevant examples when they aid understanding\nProvide only the direct answer to what was asked."

/-- Result of one `generate_response` invocation together with its observable
trace: the returned value (`message.content` may be `None`, hence
`Option String`), the api parameters of every model call issued, and the
`(function name, arguments)` of every `tool_manager.execute_tool` call, in
order. -/
structure GenOutcome where
  result : Option String
  calls : List ApiParams
  toolExecs : List (String × String)
deriving DecidableEq

/-- `AIGenerator._handle_tool_execution`: append the assistant tool-call
message, execute every requested tool call in request order appending a tool
message per result, then issue the follow-up model call (the second call
overall, `client 1`) without tool definitions; an exception on that call is
caught and converted to the apology string of line 172 of ai_generator.py.
Returns (returned value, params of the follow-up call, tool executions). -/
def handle_tool_execution (client : Nat → CallResult) (initial : ModelResponse)
    (messages : List Message) (execTool : String → String → String) :
    Option String × ApiParams × List (String × String) :=
  let assistant_message : Message :=
    { role := "assistant", content := initial.content, tool_calls := initial.tool_calls }
  let toolMsgs : List Message := initial.tool_calls.map fun tc =>
    { role := "tool", content := some (execTool tc.name tc.arguments),
      tool_call_id := some tc.id }
  let execs : List (String × String) := initial.tool_calls.map fun tc =>
    (tc.name, tc.arguments)
  let final_params : ApiParams :=
    { messages := (messages ++ [assistant_message]) ++ toolMsgs
      tools := none, tool_choice := none }
  match client 1 with
  | CallResult.ok final => (final.content, final_params, execs)
  | CallResult.exn e =>
      (some ("I used the tools but encountered an error generating the final response: " ++ e),
       final_params, execs)

/-- `AIGenerator.generate_response` (ai_generator.py lines 52-105): build the
system and user messages, attach the converted tools (Python truthiness: a
`None` or empty `tools` list attaches nothing) with `tool_choice = "auto"`,
issue the first model call; if its `finish_reason` is `"tool_calls"` and a
tool manager is present, delegate to `handle_tool_execution`, otherwise
return the first message content directly.  An exception raised by the first
call is caught by the outer `try` and converted to the apology string of
line 105. -/
def generate_response (client : Nat → CallResult) (query : String)
    (conversation_history : Option String) (tools : Option (List ToolDef))
    (tool_manager : Option (String → String → String)) : GenOutcome :=
  let system_content : String :=
    match conversation_history with
    | some h => SYSTEM_PROMPT ++ "\n\nPrevious conversation:\n" ++ h
    | none => SYSTEM_PROMPT
  let messages : List Message :=
    [{ role := "system", content := some system_content },
     { role := "user", content := some query }]
  let attached : Option (List OpenAITool) :=
    match tools with
    | some l => if l.isEmpty then none else some (convert_tools_to_openai_format l)
    | none => none
  let api_params : ApiParams :=
    { messages := messages, tools := attached
      tool_choice := if attached.isSome then some "auto" else none }
  match client 0 with
  | CallResult.exn e =>
      { result := some ("I encountered an error while processing your request: " ++ e)
        calls := [api_params], toolExecs := [] }
  | CallResult.ok resp =>
      if resp.finish_reason = "tool_calls" then
        match tool_manager with
        | some execTool =>
            let h := handle_tool_execution client resp messages execTool
            { result := h.1, calls := [api_params, h.2.1], toolExecs := h.2.2 }
        | none => { result := resp.content, calls := [api_params], toolExecs := [] }
      else
        { result := resp.content, calls := [api_params], toolExecs := [] }

/-- Modelled from the spec: the metadata mapping attached to one content hit
(vector_store.py is not under src/).  The source stores a dict with keys
`course_title`, `lesson_number`, `chunk_index`; `lesson_number` is nullable
(spec section 3) and the search tool reads it with `.get`, so absence and
`None` coincide and are both `none` here.  `chunk_index` is never read by the
code the claims are about and is omitted from the hit metadata. -/
structure ChunkMeta where
  course_title : String
  lesson_number : Option Int
deriving DecidableEq

/-- Modelled from the spec: the `SearchResults` value object of
vector_store.py (not under src/): `documents`, `metadata` and `distances` are
parallel arrays, `error` an optional message. -/
structure SearchResults where
  documents : List String
  metadata : List ChunkMeta
  distances : List Float
  error : Option String

/-- Modelled from the spec: the `SearchResults.empty(error_msg)` constructor
of vector_store.py (not under src/): all three arrays empty, `error` set to
the message (conftest.py's `error_search_results` fixture shows exactly this
shape). -/
def SearchResults.empty (error_msg : String) : SearchResults :=
  { documents := [], metadata := [], distances := [], error := some error_msg }

/-- Modelled from the spec: `SearchResults.is_empty()` of vector_store.py
(not under src/).  The spec's section-3 invariant reads
`is_empty() iff documents empty AND error unset`, but the in-repo test
`test_system_analysis.test_search_results_structure` asserts
`SearchResults.empty("No results").is_empty()` is true, i.e. the method looks
only at `documents`; the tests are the repository's own record of the code's
behaviour, so `is_empty` checks only that `documents` is empty. -/
def SearchResults.is_empty (r : SearchResults) : Bool :=
  r.documents.isEmpty

/-- Modelled from the spec: the source label of one hit as built by the
search tool of search_tools.py (not under src/):
`"<course_title> - Lesson <n>"` when the hit's metadata has a lesson number,
just `"<course_title>"` otherwise. -/
def sourceLabel (m : ChunkMeta) : String :=
  match m.lesson_number with
  | some n => m.course_title ++ " - Lesson " ++ toString n
  | none => m.course_title

/-- Modelled from the spec: the filter suffix the search tool appends to
`"No relevant content found"` when the search came back empty:
`" in course '<name>'"` when a course name was given and `" in lesson <n>"`
when a lesson number was given, in that order (search_tools.py is not under
src/; the order matches test_execute_empty_results_with_filters). -/
def filterInfo (course_name : Option String) (lesson_number : Option Int) : String :=
  (match course_name with
   | some c => " in course '" ++ c ++ "'"
   | none => "") ++
  (match lesson_number with
   | some n => " in lesson " ++ toString n
   | none => "")

/-- Modelled from the spec: `CourseSearchTool.execute(query, course_name,
lesson_number)` of search_tools.py (not under src/).  It calls the vector
store's `search` (abstracted as the function argument `search`); if `error`
is set it returns the error string verbatim; if the results are empty it
returns `"No relevant content found"` plus the filter suffixes; otherwise it
formats one block per hit, `[<label>]` on its own line followed by the chunk
text, blocks joined by blank lines.  The side effect on `last_sources` is
returned as the second component: the ordered list of source labels, one per
hit (empty when there are no hits). -/
def CourseSearchTool.execute
    (search : String → Option String → Option Int → SearchResults)
    (query : String) (course_name : Option String) (lesson_number : Option Int) :
    String × List String :=
  let results := search query course_name lesson_number
  match results.error with
  | some e => (e, [])
  | none =>
      if results.is_empty then
        ("No relevant content found" ++ filterInfo course_name lesson_number, [])
      else
        let hits := results.documents.zip results.metadata
        let blocks := hits.map fun h => "[" ++ sourceLabel h.2 ++ "]\n" ++ h.1
        (String.intercalate "\n\n" blocks, hits.map fun h => sourceLabel h.2)

/-- Modelled from the spec: the `ToolManager` registry of search_tools.py
(not under src/): tools keyed by the name taken from each tool's own
definition, kept in registration order; a tool is its executor function over
the raw keyword-argument payload. -/
structure ToolManager where
  tools : List (String × (String → String))

/-- Modelled from the spec: `ToolManager.register_tool`: stores the tool
under the name from its own definition, overwriting any prior tool of the
same name (modelled by prepending the lookup entry). -/
def ToolManager.register_tool (tm : ToolManager) (name : String)
    (execTool : String → String) : ToolManager :=
  { tools := (name, execTool) :: tm.tools }

/-- Modelled from the spec: `ToolManager.execute_tool(name, **kwargs)` of
search_tools.py (not under src/): dispatches to the tool registered under
`name`; when none is, returns the sentinel string `"Tool '<name>' not
found"` instead of raising (the embedding is a total function, so no
exception can escape). -/
def ToolManager.execute_tool (tm : ToolManager) (name : String)
    (kwargs : String) : String :=
  match tm.tools.lookup name with
  | some execTool => execTool kwargs
  | none => "Tool '" ++ name ++ "' not found"

/-- Modelled from the spec: the `SessionManager` of session_manager.py (not
under src/): per-session ordered `(query, answer)` exchange lists, oldest
first, capped at `max_history` entries. -/
structure SessionManager where
  max_history : Nat
  sessions : List (String × List (String × String))

/-- Modelled from the spec: update the association list of sessions at one
id, inserting the id when absent. -/
def upsertSession (l : List (String × List (String × String))) (id : String)
    (v : List (String × String)) : List (String × List (String × String)) :=
  match l with
  | [] => [(id, v)]
  | (k, w) :: rest =>
      if k = id then (id, v) :: rest else (k, w) :: upsertSession rest id v

/-- Modelled from the spec: the retained exchange list of one session (empty
when the id is unknown). -/
def SessionManager.exchanges (sm : SessionManager) (id : String) :
    List (String × String) :=
  (sm.sessions.lookup id).getD []

/-- Modelled from the spec: `SessionManager.add_exchange(id, query, answer)`
of session_manager.py (not under src/): appends the exchange, then truncates
the retained list to the last `max_history` entries, dropping the oldest
first. -/
def SessionManager.add_exchange (sm : SessionManager) (id query answer : String) :
    SessionManager :=
  let appended := sm.exchanges id ++ [(query, answer)]
  let kept := appended.drop (appended.length - sm.max_history)
  { sm with sessions := upsertSession sm.sessions id kept }

/-- Modelled from the spec: `SessionManager.get_history(id)` of
session_manager.py (not under src/): `none` when the id is unknown or holds
no exchanges yet; otherwise the retained exchanges rendered oldest-first as
alternating query/answer lines. -/
def SessionManager.get_history (sm : SessionManager) (id : String) :
    Option String :=
  match sm.sessions.lookup id with
  | none => none
  | some [] => none
  | some exs =>
      some (String.intercalate "\n" (exs.flatMap fun e => [e.1, e.2]))

/-- Modelled from the spec: the observable calls `RAGSystem.query` of
rag_system.py (not under src/) makes against its collaborators, in program
order, used to state the once/ordering parts of the facade contract. -/
inductive RagEvent where
  | generate (prompt : String) (history : Option String)
  | getLastSources (returned : List String)
  | resetSources
  | addExchange (session_id query answer : String)
deriving DecidableEq

/-- Whether an event is a `get_last_sources()` call. -/
def RagEvent.isGetLastSources : RagEvent → Bool
  | RagEvent.getLastSources _ => true
  | _ => false

/-- Whether an event is a `reset_sources()` call. -/
def RagEvent.isResetSources : RagEvent → Bool
  | RagEvent.resetSources => true
  | _ => false

/-- Whether an event is an `add_exchange` call. -/
def RagEvent.isAddExchange : RagEvent → Bool
  | RagEvent.addExchange _ _ _ => true
  | _ => false

/-- Modelled from the spec: the collaborators `RAGSystem.query` consults,
abstracted as pure values: the orchestrator as a function from (prompt,
history) to the answer, the tool manager's aggregated `last_sources` at the
moment `get_last_sources()` is called, and the session manager's
`get_history`. -/
structure RagDeps where
  genAnswer : String → Option String → String
  tmSources : List String
  getHistory : String → Option String

/-- Modelled from the spec: the fixed instruction template `RAGSystem.query`
wraps the user text in before handing it to the orchestrator (the in-repo
test `test_prompt_formatting` pins the leading phrase). -/
def promptTemplate (text : String) : String :=
  "Answer this question about course materials: " ++ text

/-- Modelled from the spec: `RAGSystem.query(text, session_id)` of
rag_system.py (not under src/): wraps `text` in the instruction template,
attaches `get_history(session_id)` when a session is given, calls the
orchestrator, then fetches `tool_manager.get_last_sources()`, calls
`reset_sources()`, persists the exchange via `add_exchange` exactly when
`session_id` was given, and returns `(answer, sources)`.  The second
component of the result is the ordered event trace. -/
def RAGSystem.query (deps : RagDeps) (text : String)
    (session_id : Option String) : (String × List String) × List RagEvent :=
  let prompt := promptTemplate text
  let history := match session_id with
    | some sid => deps.getHistory sid
    | none => none
  let answer := deps.genAnswer prompt history
  let sources := deps.tmSources
  let tailEvents := match session_id with
    | some sid => [RagEvent.addExchange sid text answer]
    | none => []
  ((answer, sources),
   [RagEvent.generate prompt history, RagEvent.getLastSources sources,
    RagEvent.resetSources] ++ tailEvents)

/-- Modelled from the spec: one lesson record of the data model
(document_processor.py / models.py are not under src/). -/
structure Lesson where
  number : Nat
  title : String
  link : String
deriving DecidableEq

/-- Modelled from the spec: one course record; `title` is the unique natural
key used for deduplication. -/
structure Course where
  title : String
  instructor : String
  course_link : String
  lessons : List Lesson
deriving DecidableEq

/-- Modelled from the spec: one content chunk of the data model. -/
structure Chunk where
  content : String
  course_title : String
  lesson_number : Option Nat
  chunk_index : Nat
deriving DecidableEq

/-- Modelled from the spec: the persistent state of the vector store that
ingestion touches (vector_store.py is not under src/): the catalog titles in
insertion order and the number of content rows. -/
structure VectorStoreState where
  catalogTitles : List String
  contentCount : Nat
deriving DecidableEq

/-- Modelled from the spec: `get_course_count()`: the number of catalog
rows. -/
def VectorStoreState.get_course_count (s : VectorStoreState) : Nat :=
  s.catalogTitles.length

/-- Ingestion accumulator: store state plus the `(courses_added,
chunks_added)` counters of the current `ingest_folder` run. -/
structure IngestAcc where
  store : VectorStoreState
  courses_added : Nat
  chunks_added : Nat
deriving DecidableEq

/-- Modelled from the spec: the per-file step of
`RAGSystem.add_course_folder` of rag_system.py (not under src/): run the
document processor (abstracted as `process`; parse failure is `none` and the
file is skipped), skip any course whose title already exists in the catalog,
otherwise add the catalog row then the chunk rows and accumulate the
counters. -/
def ingest_file (process : String → Option (Course × List Chunk))
    (acc : IngestAcc) (file : String) : IngestAcc :=
  match process file with
  | none => acc
  | some (course, chunks) =>
      if course.title ∈ acc.store.catalogTitles then acc
      else
        { store :=
            { catalogTitles := acc.store.catalogTitles ++ [course.title]
              contentCount := acc.store.contentCount + chunks.length }
          courses_added := acc.courses_added + 1
          chunks_added := acc.chunks_added + chunks.length }

/-- Modelled from the spec: `RAGSystem.add_course_folder(path,
clear_existing)` (`ingest_folder` in the spec; rag_system.py is not under
src/): optionally clears the store first, then folds the per-file step over
the folder's candidate files in order, returning the new store state and the
`(courses_added, chunks_added)` counters. -/
def ingest_folder (process : String → Option (Course × List Chunk))
    (files : List String) (clear_existing : Bool) (s : VectorStoreState) :
    IngestAcc :=
  let s0 := if clear_existing then { catalogTitles := [], contentCount := 0 } else s
  files.foldl (ingest_file process) { store := s0, courses_added := 0, chunks_added := 0 }

/-! Concrete fixtures used to witness the theorems below on concrete runs. -/

/-- A first-call model response requesting two tool calls. -/
def wResp : ModelResponse :=
  { finish_reason := "tool_calls", content := none
    tool_calls :=
      [{ id := "id1", name := "search_course_content", arguments := "args1" },
       { id := "id2", name := "get_course_outline", arguments := "args2" }] }

/-- A plain final model response carrying text. -/
def wRespStop : ModelResponse :=
  { finish_reason := "stop", content := some "final answer", tool_calls := [] }

/-- A client whose first call requests two tools and whose second call
answers with text. -/
def wClient : Nat → CallResult := fun n =>
  if n = 0 then CallResult.ok wResp else CallResult.ok wRespStop

/-- A client whose first call raises. -/
def wClientFirstFails : Nat → CallResult := fun _ => CallResult.exn "boom"

/-- A client whose first call requests tools and whose second call raises. -/
def wClientSecondFails : Nat → CallResult := fun n =>
  if n = 0 then CallResult.ok wResp else CallResult.exn "bang"

/-- A client that always answers with a tool-call response (first-call shape
also used where only call 0 matters). -/
def wClientToolCallsOnly : Nat → CallResult := fun _ =>
  CallResult.ok
    { finish_reason := "tool_calls", content := none
      tool_calls := [{ id := "i1", name := "t1", arguments := "a1" }] }

/-- A concrete tool executor. -/
def wExec : String → String → String := fun name args => name ++ "->" ++ args

/-- A concrete tool definition list. -/
def wToolDefs : List ToolDef :=
  [{ name := "search_course_content", description := "Search course materials"
     input_schema := "schema" }]

/-- A store search function returning two hits, the second without a lesson
number (the shape of test_execute_multiple_results). -/
def wSearchHits : String → Option String → Option Int → SearchResults := fun _ _ _ =>
  { documents := ["Content 1", "Content 2"]
    metadata :=
      [{ course_title := "Course A", lesson_number := some 1 },
       { course_title := "Course B", lesson_number := none }]
    distances := [0.1, 0.2]
    error := none }

/-- A store search function returning no hits and no error. -/
def wSearchEmpty : String → Option String → Option Int → SearchResults := fun _ _ _ =>
  { documents := [], metadata := [], distances := [], error := none }

/-- A store search function returning an error result. -/
def wSearchError : String → Option String → Option Int → SearchResults := fun _ _ _ =>
  SearchResults.empty "Database connection failed"

/-- Concrete facade collaborators for the query-lifecycle witness. -/
def wDeps : RagDeps :=
  { genAnswer := fun _ _ => "Based on previous context..."
    tmSources := ["Python Basics - Lesson 1"]
    getHistory := fun _ => some "Previous conversation about Python" }

/-! Theorems settling the claims. -/

/-- Association-list lookup misses every key that is not among the stored
keys. -/
theorem lookup_eq_none_of_not_mem_keys {β : Type} (l : List (String × β))
    (key : String) (h : key ∉ l.map Prod.fst) : l.lookup key = none := by
  induction l with
  | nil => rfl
  | cons p rest ih =>
      rcases p with ⟨k, v⟩
      simp only [List.map_cons, List.mem_cons] at h
      push_neg at h
      have hk : (key == k) = false := beq_eq_false_iff_ne.mpr h.1
      simp [List.lookup, hk, ih h.2]

/-- C2 (counterexample): the claimed biconditional
`is_empty() = true iff documents = [] and error unset` fails at the concrete
value `SearchResults.empty "No results"`: there `is_empty()` is true (as the
in-repo test asserts) while `error` is set. -/
theorem searchresults_is_empty_spec_counterexample :
    ¬ (((SearchResults.empty "No results").is_empty = true) ↔
       ((SearchResults.empty "No results").documents = [] ∧
        (SearchResults.empty "No results").error = none)) := by
  decide

/-- C2 (amended): a `SearchResults` built by the `empty(msg)` constructor has
all three arrays empty and `error` set to the message; `is_empty()` holds iff
`documents` is empty, regardless of `error`; in particular
`SearchResults.empty(msg).is_empty()` is true. -/
theorem searchresults_empty_invariant (msg : String) (r : SearchResults) :
    (SearchResults.empty msg).documents = [] ∧
    (SearchResults.empty msg).metadata = [] ∧
    (SearchResults.empty msg).distances = [] ∧
    (SearchResults.empty msg).error = some msg ∧
    (r.is_empty = true ↔ r.documents = []) ∧
    (SearchResults.empty msg).is_empty = true := by
  refine ⟨rfl, rfl, rfl, rfl, ?_, rfl⟩
  cases h : r.documents <;> simp [SearchResults.is_empty, h]

/-- C4: the search tool's `execute` returns the store error verbatim when
`error` is set; returns `"No relevant content found"` with the course and
lesson filter suffixes when the results are empty without error; and
otherwise returns one block per hit, `[<course_title> - Lesson <n>]` (lesson
suffix omitted when the hit's metadata has no lesson number) followed by the
chunk text, blocks joined with blank lines. -/
theorem course_search_tool_execute_spec
    (search : String → Option String → Option Int → SearchResults)
    (query : String) (cn : Option String) (ln : Option Int) :
    (∀ e, (search query cn ln).error = some e →
        (CourseSearchTool.execute search query cn ln).1 = e) ∧
    ((search query cn ln).error = none → (search query cn ln).documents = [] →
        (CourseSearchTool.execute search query cn ln).1 =
          "No relevant content found" ++
            (match cn with
             | some c => " in course '" ++ c ++ "'"
             | none => "") ++
            (match ln with
             | some n => " in lesson " ++ toString n
             | none => "")) ∧
    ((search query cn ln).error = none → (search query cn ln).documents ≠ [] →
        (CourseSearchTool.execute search query cn ln).1 =
          String.intercalate "\n\n"
            (((search query cn ln).documents.zip (search query cn ln).metadata).map
              fun h =>
                "[" ++
                  (match h.2.lesson_number with
                   | some n => h.2.course_title ++ " - Lesson " ++ toString n
                   | none => h.2.course_title) ++ "]\n" ++ h.1)) := by
  refine ⟨?_, ?_, ?_⟩
  · intro e he
    simp [CourseSearchTool.execute, he]
  · intro he hd
    simp [CourseSearchTool.execute, he, hd, SearchResults.is_empty, filterInfo,
      String.append_assoc]
  · intro he hd
    have hne : (search query cn ln).documents.isEmpty = false := by
      cases h : (search query cn ln).documents with
      | nil => exact absurd h hd
      | cons a l => simp
    simp [CourseSearchTool.execute, he, SearchResults.is_empty, hne, sourceLabel]

/-- C5: after an `execute` call that yields hits, `last_sources` is the
ordered list with one label per hit — `"<course_title> - Lesson <n>"` when
the hit's metadata has a lesson number, `"<course_title>"` otherwise; after
a call yielding no hits (error result or empty result) it is empty. -/
theorem course_search_tool_last_sources
    (search : String → Option String → Option Int → SearchResults)
    (query : String) (cn : Option String) (ln : Option Int) :
    ((search query cn ln).error = none → (search query cn ln).documents ≠ [] →
        (CourseSearchTool.execute search query cn ln).2 =
          ((search query cn ln).documents.zip (search query cn ln).metadata).map
            fun h =>
              match h.2.lesson_number with
              | some n => h.2.course_title ++ " - Lesson " ++ toString n
              | none => h.2.course_title) ∧
    (((search query cn ln).error ≠ none ∨ (search query cn ln).documents = []) →
        (CourseSearchTool.execute search query cn ln).2 = []) := by
  constructor
  · intro he hd
    have hne : (search query cn ln).documents.isEmpty = false := by
      cases h : (search query cn ln).documents with
      | nil => exact absurd h hd
      | cons a l => simp
    simp [CourseSearchTool.execute, he, SearchResults.is_empty, hne, sourceLabel]
  · intro hcase
    rcases hcase with he | hd
    · cases h : (search query cn ln).error with
      | none => exact absurd h he
      | some e => simp [CourseSearchTool.execute, h]
    · cases h : (search query cn ln).error with
      | none => simp [CourseSearchTool.execute, h, hd, SearchResults.is_empty]
      | some e => simp [CourseSearchTool.execute, h]

/-- C6: dispatching a name under which no tool is registered returns exactly
the sentinel `"Tool '<name>' not found"`; the embedding is a total function,
so no exception can be raised. -/
theorem tool_manager_unknown_tool (tm : ToolManager) (name kwargs : String)
    (h : name ∉ tm.tools.map Prod.fst) :
    tm.execute_tool name kwargs = "Tool '" ++ name ++ "' not found" := by
  unfold ToolManager.execute_tool
  rw [lookup_eq_none_of_not_mem_keys tm.tools name h]

/-- C6 witness: on a manager with no registered tools, executing
`"made_up_tool"` returns exactly `"Tool 'made_up_tool' not found"`. -/
theorem tool_manager_unknown_tool_witness :
    ("made_up_tool" ∉ (ToolManager.mk []).tools.map Prod.fst) ∧
    (ToolManager.mk []).execute_tool "made_up_tool" "" =
      "Tool 'made_up_tool' not found" :=
  ⟨by simp, tool_manager_unknown_tool (ToolManager.mk []) "made_up_tool" "" (by simp)⟩

/-- C4 witness: the three `execute` branches on concrete stores — an error
result is returned verbatim, an empty result yields the filtered
no-content message, and two hits (the second without a lesson number) yield
the two labeled blocks joined by a blank line. -/
theorem course_search_tool_execute_spec_witness :
    (CourseSearchTool.execute wSearchError "any query" none none).1 =
      "Database connection failed" ∧
    (CourseSearchTool.execute wSearchEmpty "topic" (some "Nonexistent Course")
        (some 999)).1 =
      "No relevant content found in course 'Nonexistent Course' in lesson 999" ∧
    (CourseSearchTool.execute wSearchHits "multiple topics" none none).1 =
      "[Course A - Lesson 1]\nContent 1\n\n[Course B]\nContent 2" := by
  refine ⟨?_, ?_, ?_⟩
  · exact (course_search_tool_execute_spec wSearchError "any query" none none).1
      "Database connection failed" rfl
  · have h := (course_search_tool_execute_spec wSearchEmpty "topic"
      (some "Nonexistent Course") (some 999)).2.1 rfl rfl
    rw [h]
    decide
  · have h := (course_search_tool_execute_spec wSearchHits "multiple topics"
      none none).2.2 rfl (by decide)
    rw [h]
    decide

/-- C5 witness: with two hits the resulting `last_sources` is the two labels
in hit order; with an empty result it ends up empty. -/
theorem course_search_tool_last_sources_witness :
    (CourseSearchTool.execute wSearchHits "multiple topics" none none).2 =
      ["Course A - Lesson 1", "Course B"] ∧
    (CourseSearchTool.execute wSearchEmpty "nonexistent topic" none none).2 = [] := by
  constructor
  · have h := (course_search_tool_last_sources wSearchHits "multiple topics"
      none none).1 rfl (by decide)
    rw [h]
    decide
  · exact (course_search_tool_last_sources wSearchEmpty "nonexistent topic"
      none none).2 (Or.inr rfl)

/-- The session list stored under an id after `upsertSession` is the value
just written. -/
theorem lookup_upsertSession_self (l : List (String × List (String × String)))
    (id : String) (v : List (String × String)) :
    (upsertSession l id v).lookup id = some v := by
  induction l with
  | nil => simp [upsertSession, List.lookup]
  | cons p rest ih =>
      rcases p with ⟨k, w⟩
      by_cases hk : k = id
      · subst hk
        simp [upsertSession, List.lookup]
      · have hne : (id == k) = false := beq_eq_false_iff_ne.mpr fun h => hk h.symm
        simp [upsertSession, hk, List.lookup, hne, ih]

/-- C9: `add_exchange` retains at most `MAX_HISTORY` exchanges with FIFO
eviction: the retained list after an append has length
`min (previous + 1) MAX_HISTORY`, it is a suffix of the appended list (so
the entries dropped are the oldest), and concretely with `MAX_HISTORY = 2`,
after two exchanges plus one more `add_exchange` the retained history is
exactly the most recent two exchanges and `get_history` renders exactly
those, oldest first. -/
theorem session_history_fifo :
    (∀ (sm : SessionManager) (id q a : String),
        ((sm.add_exchange id q a).exchanges id).length =
          min ((sm.exchanges id).length + 1) sm.max_history) ∧
    (∀ (sm : SessionManager) (id q a : String),
        ((sm.add_exchange id q a).exchanges id) <:+ (sm.exchanges id ++ [(q, a)])) ∧
    (∀ q1 a1 q2 a2 q3 a3 : String,
        ((((SessionManager.mk 2 []).add_exchange "s1" q1 a1).add_exchange "s1" q2 a2).add_exchange
              "s1" q3 a3).exchanges "s1" = [(q2, a2), (q3, a3)] ∧
        ((((SessionManager.mk 2 []).add_exchange "s1" q1 a1).add_exchange "s1" q2 a2).add_exchange
              "s1" q3 a3).get_history "s1" =
          some (q2 ++ "\n" ++ a2 ++ "\n" ++ q3 ++ "\n" ++ a3)) := by
  refine ⟨?_, ?_, ?_⟩
  · intro sm id q a
    simp only [SessionManager.add_exchange, SessionManager.exchanges,
      lookup_upsertSession_self, Option.getD_some]
    rw [List.length_drop]
    simp only [List.length_append, List.length_singleton]
    omega
  · intro sm id q a
    simp only [SessionManager.add_exchange, SessionManager.exchanges,
      lookup_upsertSession_self, Option.getD_some]
    exact List.drop_suffix _ _
  · intro q1 a1 q2 a2 q3 a3
    exact ⟨rfl, rfl⟩

/-- Catalog titles survive one ingestion step. -/
theorem mem_titles_ingest_file (process : String → Option (Course × List Chunk))
    (acc : IngestAcc) (f : String) (x : String)
    (hx : x ∈ acc.store.catalogTitles) :
    x ∈ (ingest_file process acc f).store.catalogTitles := by
  unfold ingest_file
  cases hp : process f with
  | none => exact hx
  | some pc =>
      rcases pc with ⟨c, chunks⟩
      by_cases hm : c.title ∈ acc.store.catalogTitles
      · simpa [hm] using hx
      · simp only [hm, if_false]
        exact List.mem_append_left _ hx

/-- Catalog titles survive a whole ingestion run. -/
theorem mem_titles_ingest_foldl (process : String → Option (Course × List Chunk))
    (files : List String) (acc : IngestAcc) (x : String)
    (hx : x ∈ acc.store.catalogTitles) :
    x ∈ (files.foldl (ingest_file process) acc).store.catalogTitles := by
  induction files generalizing acc with
  | nil => exact hx
  | cons f rest ih =>
      exact ih (ingest_file process acc f) (mem_titles_ingest_file process acc f x hx)

/-- After an ingestion run, the title of every file the processor parses is
in the catalog. -/
theorem title_mem_after_ingest (process : String → Option (Course × List Chunk))
    (files : List String) (acc : IngestAcc) (f : String) (c : Course)
    (chunks : List Chunk) (hf : f ∈ files) (hp : process f = some (c, chunks)) :
    c.title ∈ (files.foldl (ingest_file process) acc).store.catalogTitles := by
  induction files generalizing acc with
  | nil => cases hf
  | cons g rest ih =>
      rcases List.mem_cons.mp hf with h | h
      · subst h
        rw [List.foldl_cons]
        apply mem_titles_ingest_foldl
        unfold ingest_file
        rw [hp]
        by_cases hm : c.title ∈ acc.store.catalogTitles
        · simp [hm]
        · simp only [hm, if_false]
          exact List.mem_append_right _ (List.mem_singleton.mpr rfl)
      · exact ih (ingest_file process acc g) h

/-- An ingestion run over files whose parsed titles are all already in the
catalog changes nothing. -/
theorem ingest_foldl_fixed (process : String → Option (Course × List Chunk))
    (files : List String) (acc : IngestAcc)
    (hall : ∀ f ∈ files, ∀ c chunks, process f = some (c, chunks) →
        c.title ∈ acc.store.catalogTitles) :
    files.foldl (ingest_file process) acc = acc := by
  induction files generalizing acc with
  | nil => rfl
  | cons g rest ih =>
      have hstep : ingest_file process acc g = acc := by
        unfold ingest_file
        cases hp : process g with
        | none => rfl
        | some pc =>
            rcases pc with ⟨c, chunks⟩
            have hm := hall g (List.mem_cons_self g rest) c chunks hp
            simp [hm]
      rw [List.foldl_cons, hstep]
      exact ih acc fun f hf => hall f (List.mem_cons_of_mem g hf)

/-- C8: calling `ingest_folder` twice in a row on the same folder without
`clear_existing` leaves `get_course_count()` unchanged: the second run skips
every course whose title already exists in the catalog, adds no course and no
chunk, and leaves the store state identical. -/
theorem ingest_folder_idempotent (process : String → Option (Course × List Chunk))
    (files : List String) (s : VectorStoreState) :
    (ingest_folder process files false
        (ingest_folder process files false s).store).store.get_course_count =
      (ingest_folder process files false s).store.get_course_count ∧
    (ingest_folder process files false
        (ingest_folder process files false s).store).store =
      (ingest_folder process files false s).store ∧
    (ingest_folder process files false
        (ingest_folder process files false s).store).courses_added = 0 ∧
    (ingest_folder process files false
        (ingest_folder process files false s).store).chunks_added = 0 := by
  have hfix :
      files.foldl (ingest_file process)
        { store := (ingest_folder process files false s).store
          courses_added := 0, chunks_added := 0 } =
      { store := (ingest_folder process files false s).store
        courses_added := 0, chunks_added := 0 } := by
    apply ingest_foldl_fixed
    intro f hf c chunks hp
    exact title_mem_after_ingest process files
      { store := s, courses_added := 0, chunks_added := 0 } f c chunks hf hp
  have hsecond :
      ingest_folder process files false (ingest_folder process files false s).store =
        { store := (ingest_folder process files false s).store
          courses_added := 0, chunks_added := 0 } := by
    unfold ingest_folder
    simpa using hfix
  rw [hsecond]
  exact ⟨rfl, rfl, rfl, rfl⟩

/-- C7: one facade `query` fetches `get_last_sources()` exactly once and
returns exactly that list as the sources, calls `reset_sources()` exactly
once afterwards and before returning, persists the `(query, answer)` exchange
via `add_exchange` exactly when a session id was given, and returns the pair
`(answer, sources)` where the answer is the orchestrator's output on the
templated prompt and the session history. -/
theorem rag_query_sources_lifecycle (deps : RagDeps) (text : String)
    (session_id : Option String) (q : (String × List String) × List RagEvent)
    (hq : RAGSystem.query deps text session_id = q) :
    q.1.2 = deps.tmSources ∧
    q.2.filter RagEvent.isGetLastSources = [RagEvent.getLastSources deps.tmSources] ∧
    q.2.filter RagEvent.isResetSources = [RagEvent.resetSources] ∧
    (∃ i j, i < j ∧ q.2.get? i = some (RagEvent.getLastSources deps.tmSources) ∧
        q.2.get? j = some RagEvent.resetSources) ∧
    (∀ sid, session_id = some sid →
        q.2.filter RagEvent.isAddExchange = [RagEvent.addExchange sid text q.1.1]) ∧
    (session_id = none → q.2.filter RagEvent.isAddExchange = []) ∧
    q.1.1 = deps.genAnswer (promptTemplate text)
      (match session_id with
       | some sid => deps.getHistory sid
       | none => none) := by
  subst hq
  cases session_id with
  | none =>
      refine ⟨rfl, ?_, ?_, ⟨1, 2, by omega, rfl, rfl⟩, ?_, ?_, rfl⟩
      · simp [RAGSystem.query, RagEvent.isGetLastSources, List.filter]
      · simp [RAGSystem.query, RagEvent.isResetSources, List.filter]
      · intro sid hsid
        cases hsid
      · intro _
        simp [RAGSystem.query, RagEvent.isAddExchange, List.filter]
  | some sid =>
      refine ⟨rfl, ?_, ?_, ⟨1, 2, by omega, rfl, rfl⟩, ?_, ?_, rfl⟩
      · simp [RAGSystem.query, RagEvent.isGetLastSources, List.filter]
      · simp [RAGSystem.query, RagEvent.isResetSources, List.filter]
      · intro sid2 hsid
        cases hsid
        simp [RAGSystem.query, RagEvent.isAddExchange, List.filter]
      · intro hnone
        cases hnone

/-- C7 witness: on concrete collaborators with a session id, the returned
sources are the fetched list, the trace holds exactly one fetch then one
reset, and exactly one `add_exchange` recording the query and the answer. -/
theorem rag_query_sources_lifecycle_witness :
    (RAGSystem.query wDeps "Tell me more" (some "test_session_123")).1.2 =
      ["Python Basics - Lesson 1"] ∧
    (RAGSystem.query wDeps "Tell me more" (some "test_session_123")).2.filter
        RagEvent.isResetSources = [RagEvent.resetSources] ∧
    (RAGSystem.query wDeps "Tell me more" (some "test_session_123")).2.filter
        RagEvent.isAddExchange =
      [RagEvent.addExchange "test_session_123" "Tell me more"
        "Based on previous context..."] := by
  have h := rag_query_sources_lifecycle wDeps "Tell me more"
    (some "test_session_123") (RAGSystem.query wDeps "Tell me more"
      (some "test_session_123")) rfl
  exact ⟨h.1, h.2.2.1, h.2.2.2.2.1 "test_session_123" rfl⟩

/-- C1: every `generate_response` call makes at most two model round trips;
when the first response does not request tool calls, exactly one model call
is made and its text is returned with no tool executed; when it requests
tool calls and a tool manager is present, the requested calls are executed
through `execute_tool` in request order, exactly one follow-up model call is
issued with no `tools` key attached, and its text is returned. -/
theorem generate_response_round_trips (client : Nat → CallResult)
    (query : String) (hist : Option String) (tools : Option (List ToolDef))
    (tm : Option (String → String → String)) (g : GenOutcome)
    (hg : g = generate_response client query hist tools tm) :
    g.calls.length ≤ 2 ∧
    (∀ resp, client 0 = CallResult.ok resp →
      (resp.finish_reason ≠ "tool_calls" →
          g.calls.length = 1 ∧ g.toolExecs = [] ∧ g.result = resp.content) ∧
      (∀ execTool, tm = some execTool → resp.finish_reason = "tool_calls" →
          g.toolExecs = resp.tool_calls.map (fun tc => (tc.name, tc.arguments)) ∧
          g.calls.length = 2 ∧
          (∃ p, g.calls.get? 1 = some p ∧ p.tools = none) ∧
          (∀ final, client 1 = CallResult.ok final → g.result = final.content))) := by
  subst hg
  constructor
  · cases h0 : client 0 with
    | exn e => simp [generate_response, h0]
    | ok resp =>
        by_cases hfr : resp.finish_reason = "tool_calls"
        · cases tm with
          | none => simp [generate_response, h0, hfr]
          | some execTool => simp [generate_response, h0, hfr]
        · simp [generate_response, h0, hfr]
  · intro resp h0
    constructor
    · intro hfr
      simp [generate_response, h0, hfr]
    · intro execTool htm hfr
      subst htm
      refine ⟨?_, ?_, ?_, ?_⟩
      · cases hc1 : client 1 <;>
          simp [generate_response, handle_tool_execution, h0, hfr, hc1]
      · cases hc1 : client 1 <;>
          simp [generate_response, handle_tool_execution, h0, hfr, hc1]
      · cases hc1 : client 1 <;>
          simp [generate_response, handle_tool_execution, h0, hfr, hc1]
      · intro final hfin
        simp [generate_response, handle_tool_execution, h0, hfr, hfin]

/-- C1 witness: on a concrete client whose first response requests two tool
calls and whose second call answers with text, exactly two model calls
occur, the two tools are executed in request order, the second call carries
no tool definitions, and the final text is returned. -/
theorem generate_response_round_trips_witness :
    (wClient 0 = CallResult.ok wResp) ∧
    (generate_response wClient "What is in lesson 2?" none (some wToolDefs)
        (some wExec)).toolExecs =
      [("search_course_content", "args1"), ("get_course_outline", "args2")] ∧
    (generate_response wClient "What is in lesson 2?" none (some wToolDefs)
        (some wExec)).calls.length = 2 ∧
    (∃ p, (generate_response wClient "What is in lesson 2?" none (some wToolDefs)
        (some wExec)).calls.get? 1 = some p ∧ p.tools = none) ∧
    (generate_response wClient "What is in lesson 2?" none (some wToolDefs)
        (some wExec)).result = some "final answer" := by
  have h := (generate_response_round_trips wClient "What is in lesson 2?" none
    (some wToolDefs) (some wExec)
    (generate_response wClient "What is in lesson 2?" none (some wToolDefs)
      (some wExec)) rfl).2 wResp rfl
  have h2 := h.2 wExec rfl rfl
  exact ⟨rfl, by rw [h2.1]; rfl, h2.2.1, h2.2.2.1, h2.2.2.2 wRespStop rfl⟩

/-- C3: an exception raised by either underlying model call is caught inside
`generate_response` and converted into a returned apology string containing
`str(e)`; the embedding is a total function mirroring the two
`try`/`except` blocks of ai_generator.py, so no such exception reaches the
caller. -/
theorem generate_response_catches_errors (client : Nat → CallResult)
    (query : String) (hist : Option String) (tools : Option (List ToolDef))
    (tm : Option (String → String → String)) (g : GenOutcome)
    (hg : g = generate_response client query hist tools tm) :
    (∀ e, client 0 = CallResult.exn e →
        g.result = some ("I encountered an error while processing your request: " ++ e) ∧
        ∃ pre post, g.result = some (pre ++ e ++ post)) ∧
    (∀ resp execTool e, client 0 = CallResult.ok resp →
        resp.finish_reason = "tool_calls" → tm = some execTool →
        client 1 = CallResult.exn e →
        g.result =
          some ("I used the tools but encountered an error generating the final response: " ++ e) ∧
        ∃ pre post, g.result = some (pre ++ e ++ post)) := by
  subst hg
  constructor
  · intro e h0
    have hres : (generate_response client query hist tools tm).result =
        some ("I encountered an error while processing your request: " ++ e) := by
      simp [generate_response, h0]
    refine ⟨hres, "I encountered an error while processing your request: ", "", ?_⟩
    rw [hres]
    simp
  · intro resp execTool e h0 hfr htm hc1
    subst htm
    have hres : (generate_response client query hist tools (some execTool)).result =
        some ("I used the tools but encountered an error generating the final response: " ++ e) := by
      simp [generate_response, handle_tool_execution, h0, hfr, hc1]
    refine ⟨hres, "I used the tools but encountered an error generating the final response: ", "", ?_⟩
    rw [hres]
    simp

/-- C3 witness: a first call raising `"boom"` yields the first apology
string carrying `"boom"`; a tool-call round whose follow-up call raises
`"bang"` yields the second apology string carrying `"bang"`. -/
theorem generate_response_catches_errors_witness :
    (generate_response wClientFirstFails "q" none none none).result =
      some ("I encountered an error while processing your request: " ++ "boom") ∧
    (generate_response wClientSecondFails "q" none none (some wExec)).result =
      some ("I used the tools but encountered an error generating the final response: " ++ "bang") := by
  constructor
  · exact ((generate_response_catches_errors wClientFirstFails "q" none none none
      (generate_response wClientFirstFails "q" none none none) rfl).1 "boom" rfl).1
  · exact ((generate_response_catches_errors wClientSecondFails "q" none none
      (some wExec) (generate_response wClientSecondFails "q" none none (some wExec))
      rfl).2 wResp wExec "bang" rfl rfl rfl rfl).1

/-- C10: when the first response has `finish_reason = "tool_calls"` but no
tool manager was supplied, no tool is executed, no follow-up model call is
made and no error message is produced: the first message content is returned
directly — which for a tool-call response may be `None`. -/
theorem generate_response_no_tool_manager (client : Nat → CallResult)
    (query : String) (hist : Option String) (tools : Option (List ToolDef))
    (resp : ModelResponse) (g : GenOutcome)
    (hg : g = generate_response client query hist tools none)
    (h0 : client 0 = CallResult.ok resp)
    (hfr : resp.finish_reason = "tool_calls") :
    g.result = resp.content ∧ g.calls.length = 1 ∧ g.toolExecs = [] := by
  subst hg
  refine ⟨?_, ?_, ?_⟩ <;> simp [generate_response, h0, hfr]

/-- C10 witness: on a concrete client answering a tool-call response whose
message content is `None`, calling with no tool manager returns `None`,
makes one model call and executes no tool. -/
theorem generate_response_no_tool_manager_witness :
    (generate_response wClientToolCallsOnly "q" none none none).result = none ∧
    (generate_response wClientToolCallsOnly "q" none none none).calls.length = 1 ∧
    (generate_response wClientToolCallsOnly "q" none none none).toolExecs = [] :=
  generate_response_no_tool_manager wClientToolCallsOnly "q" none none
    { finish_reason := "tool_calls", content := none
      tool_calls := [{ id := "i1", name := "t1", arguments := "a1" }] }
    (generate_response wClientToolCallsOnly "q" none none none) rfl rfl rfl

end RagCore
